import Mathlib

/-!
# Verification of `aletheia` (`src/aletheia/secrets.py`)

Shallow embedding of the secret-management core: the `Chest` aggregate
(construction, `get`, `create`) and the `SimpleSecret` value object
(lazy `plaintext` property, `decrypt`, `__repr__`).

The two external collaborators (Google Cloud KMS and Google Cloud Storage,
reached through `googleapiclient`) are not part of this repository; they are
modelled as records of functions, at exactly the granularity at which the
source code uses their responses:

* `kms.encrypt(name, body).execute()` — the source binds the whole response
  and uses it opaquely as the ciphertext blob, so it is modelled as an opaque
  `String`;
* `kms.decrypt(name, body).execute()` — the source reads only the
  `plaintext` field of the response, so the response is a one-field record;
* the storage client's object/bucket operations are functions over an
  abstract client-state type `σ` (inserts may change it, reads do not).

Python exceptions become an explicit error type `PyErr` whose constructors
mirror the exception classes the source can raise or catch (`HttpError` from
`googleapiclient`, `RuntimeError`, `ValueError`); a function that can raise
returns `Except PyErr α`.  `base64.b64encode`/`b64decode` (Python stdlib)
are abstract functions in a record `B64`.  Python `str` is `String`.

Every operation additionally returns the list of outbound calls it made to
the external collaborators (`ExtCall`), so that claims about which remote
calls happen (and how many) are statable.
-/

namespace Aletheia

/-- Python exceptions relevant to `secrets.py`, one constructor per
exception class the source raises or catches. `httpError` is
`googleapiclient.errors.HttpError`, the generic transport error surfaced by
both external clients. -/
inductive PyErr where
  | httpError (msg : String)
  | runtimeError (msg : String)
  | valueError (msg : String)
  deriving DecidableEq, Repr

/-- One outbound call to an external collaborator, with the arguments the
source passes. -/
inductive ExtCall where
  | kmsEncrypt (name plaintextB64 : String)
  | kmsDecrypt (name ciphertext : String)
  | csBucketsGet (bucket : String)
  | csObjectsGet (bucket object : String)
  | csObjectsGetMedia (bucket object : String)
  | csObjectsInsert (bucket name body contentType : String)
      (metadata : List (String × String))
  deriving DecidableEq, Repr

/-- The response of a KMS `decrypt(...).execute()` call, at the granularity
the source uses it: only the `plaintext` field is read (line 229). -/
structure DecryptResponse where
  plaintext : String
  deriving DecidableEq, Repr

/-- External Key Service collaborator (Google Cloud KMS via
`googleapiclient`). `encrypt name p` models
`cryptoKeys.encrypt(name=name, body=\x7b'plaintext': p\x7d).execute()`; the
source binds the whole response and treats it as the ciphertext blob, so the
response is an opaque `String`. `decrypt name c` models
`cryptoKeys.decrypt(name=name, body=\x7b'ciphertext': c\x7d).execute()`. -/
structure KmsClient where
  encrypt : String → String → Except PyErr String
  decrypt : String → String → Except PyErr DecryptResponse

/-- The metadata record returned by a storage `objects().get(...)` call, at
the granularity the source uses it: the `contentType` field and the
`metadata` string-to-string mapping (lines 116-121). -/
structure ObjectMetadata where
  contentType : String
  metadata : List (String × String)
  deriving DecidableEq, Repr

/-- External Object Store collaborator (Google Cloud Storage via
`googleapiclient`), over an abstract client-state `σ`: reads leave the state
alone, `objectsInsert` returns the possibly-updated state.
`bucketsGet` models `buckets().get(bucket=b).execute()`, `objectsGet` the
metadata fetch `objects().get(bucket, object).execute()`, `objectsGetMedia`
the body fetch `objects().get_media(bucket, object).execute()`, and
`objectsInsert bucket name body contentType metadata` the
`objects().insert(...)` upload. -/
structure CsClient (σ : Type) where
  bucketsGet : σ → String → Except PyErr Unit
  objectsGet : σ → String → String → Except PyErr ObjectMetadata
  objectsGetMedia : σ → String → String → Except PyErr String
  objectsInsert : σ → String → String → String → String →
      List (String × String) → Except PyErr σ

/-- `base64.b64encode` / `base64.b64decode` from the Python standard
library, abstract here; claims that need the round trip take
`∀ s, dec (enc s) = s` as a hypothesis. -/
structure B64 where
  enc : String → String
  dec : String → String

/-- `ALETHEIA_CONTENT_TYPE` (secrets.py line 23). -/
def ALETHEIA_CONTENT_TYPE : String := "application/x-aletheia-secret"

/-- `ALETHEIA_METADATA_KEY` (secrets.py line 24). -/
def ALETHEIA_METADATA_KEY : String := "x-aletheia-secret-key"

/-- The key-route format string of `Chest.__init__` (lines 68-69):
`projects/{project_id}/locations/{location}/keyRings/{keyring}/cryptoKeys/{chest}`. -/
def keyRouteFormat (project_id location keyring chest : String) : String :=
  "projects/" ++ project_id ++ "/locations/" ++ location ++ "/keyRings/" ++
    keyring ++ "/cryptoKeys/" ++ chest

/-- The `Chest` object's fields, assigned at lines 87-92 of `__init__`. -/
structure Chest where
  project_id : String
  chest : String
  bucket : String
  location : String
  keyring : String
  keyname : String
  deriving DecidableEq, Repr

/-- The `SimpleSecret` object's fields, assigned in `__init__`
(lines 193-196). `_plaintext` is `none` for Python `None`. -/
structure SimpleSecret where
  name : String
  _ciphertext : String
  _kms_keyname : String
  _plaintext : Option String
  deriving DecidableEq, Repr

/-- `Chest.__init__` (lines 54-94). Builds the key route, probes the key by
encrypting the fixed string `THIS IS NOT A SECRET` (base64-encoded) — any
exception from that call propagates unmodified — then probes the bucket,
converting only an `HttpError` into
`RuntimeError("Unable to access CS bucket {bucket}")`; on success returns
the fully assigned `Chest`. Also returns the outbound calls made. -/
def chestInit {σ : Type} (kms : KmsClient) (cs : CsClient σ) (b64 : B64)
    (st : σ) (project_id chest bucket location keyring : String) :
    Except PyErr Chest × List ExtCall :=
  let name := keyRouteFormat project_id location keyring chest
  let probeBody := b64.enc "THIS IS NOT A SECRET"
  match kms.encrypt name probeBody with
  | .error e => (.error e, [.kmsEncrypt name probeBody])
  | .ok _ =>
    match cs.bucketsGet st bucket with
    | .error (.httpError _) =>
        (.error (.runtimeError ("Unable to access CS bucket " ++ bucket)),
         [.kmsEncrypt name probeBody, .csBucketsGet bucket])
    | .error e =>
        (.error e, [.kmsEncrypt name probeBody, .csBucketsGet bucket])
    | .ok _ =>
        (.ok ⟨project_id, chest, bucket, location, keyring, name⟩,
         [.kmsEncrypt name probeBody, .csBucketsGet bucket])

/-- `Chest.get` (lines 96-127). Fetches the object's metadata (an exception
there, such as the client's 404 `HttpError` for a missing object, propagates
unmodified), validates the content type and the presence of
`ALETHEIA_METADATA_KEY`, and only then fetches the body and builds a
`SimpleSecret` with no cached plaintext; a failed validation raises
`ValueError("{name} does not have the correct content type or key set")`
without fetching the body. -/
def chestGet {σ : Type} (cs : CsClient σ) (c : Chest) (st : σ)
    (name : String) : Except PyErr SimpleSecret × List ExtCall :=
  match cs.objectsGet st c.bucket name with
  | .error e => (.error e, [.csObjectsGet c.bucket name])
  | .ok md =>
    match md.metadata.lookup ALETHEIA_METADATA_KEY with
    | some route =>
      if md.contentType = ALETHEIA_CONTENT_TYPE then
        match cs.objectsGetMedia st c.bucket name with
        | .error e =>
            (.error e,
             [.csObjectsGet c.bucket name, .csObjectsGetMedia c.bucket name])
        | .ok body =>
            (.ok ⟨name, body, route, none⟩,
             [.csObjectsGet c.bucket name, .csObjectsGetMedia c.bucket name])
      else
        (.error (.valueError
            (name ++ " does not have the correct content type or key set")),
         [.csObjectsGet c.bucket name])
    | none =>
        (.error (.valueError
            (name ++ " does not have the correct content type or key set")),
         [.csObjectsGet c.bucket name])

/-- `Chest.create` (lines 129-165). Encrypts the base64-encoded secret under
the chest's key route, stores the encrypt-call result as the object body
with content type `ALETHEIA_CONTENT_TYPE` and the single metadata entry
`ALETHEIA_METADATA_KEY ↦ keyname`, and returns a `SimpleSecret` whose
plaintext cache is pre-populated with the caller's secret. Exceptions from
either outbound call propagate unmodified. -/
def chestCreate {σ : Type} (kms : KmsClient) (cs : CsClient σ) (b64 : B64)
    (c : Chest) (st : σ) (name secret : String) :
    Except PyErr (SimpleSecret × σ) × List ExtCall :=
  match kms.encrypt c.keyname (b64.enc secret) with
  | .error e => (.error e, [.kmsEncrypt c.keyname (b64.enc secret)])
  | .ok ciphertext =>
    match cs.objectsInsert st c.bucket name ciphertext ALETHEIA_CONTENT_TYPE
        [(ALETHEIA_METADATA_KEY, c.keyname)] with
    | .error e =>
        (.error e,
         [.kmsEncrypt c.keyname (b64.enc secret),
          .csObjectsInsert c.bucket name ciphertext ALETHEIA_CONTENT_TYPE
            [(ALETHEIA_METADATA_KEY, c.keyname)]])
    | .ok st2 =>
        (.ok (⟨name, ciphertext, c.keyname, some secret⟩, st2),
         [.kmsEncrypt c.keyname (b64.enc secret),
          .csObjectsInsert c.bucket name ciphertext ALETHEIA_CONTENT_TYPE
            [(ALETHEIA_METADATA_KEY, c.keyname)]])

/-- `SimpleSecret.decrypt` (lines 213-229): calls KMS decrypt on the stored
ciphertext and key route and base64-decodes the response's `plaintext`
field. An exception from the call propagates. -/
def SimpleSecret.decrypt (kms : KmsClient) (b64 : B64) (s : SimpleSecret) :
    Except PyErr String × List ExtCall :=
  match kms.decrypt s._kms_keyname s._ciphertext with
  | .error e => (.error e, [.kmsDecrypt s._kms_keyname s._ciphertext])
  | .ok resp =>
      (.ok (b64.dec resp.plaintext),
       [.kmsDecrypt s._kms_keyname s._ciphertext])

/-- The `SimpleSecret.plaintext` property (lines 200-211): if the cache is
`None` it calls `decrypt` and assigns the result to the cache, then returns
the cache. Returns the value, the post-state of the object (unchanged when
the cache was already populated, and also unchanged when `decrypt` raises,
since the assignment then never executes), and the outbound calls. -/
def SimpleSecret.plaintext (kms : KmsClient) (b64 : B64) (s : SimpleSecret) :
    Except PyErr String × SimpleSecret × List ExtCall :=
  match s._plaintext with
  | some p => (.ok p, s, [])
  | none =>
    match s.decrypt kms b64 with
    | (.error e, tr) => (.error e, s, tr)
    | (.ok p, tr) => (.ok p, { s with _plaintext := some p }, tr)

/-- Python truthiness of the `_plaintext` attribute (`str | None`): `None`
and the empty string are falsy, a non-empty string is truthy. -/
def pyTruthy : Option String → Bool
  | none => false
  | some t => t ≠ ""

/-- `SimpleSecret.__repr__` (lines 231-242):
`"Secret(name='{name}', {status})"` where `status` is `"cleartext"` if
`self._plaintext` is truthy and `"encrypted"` otherwise. -/
def SimpleSecret.reprStr (s : SimpleSecret) : String :=
  "Secret(name=\x27" ++ s.name ++ "\x27, " ++
    (if pyTruthy s._plaintext then "cleartext" else "encrypted") ++ ")"

/-- Number of KMS decrypt calls in a trace. -/
def countDecrypt (tr : List ExtCall) : Nat :=
  tr.countP fun c => match c with
    | .kmsDecrypt _ _ => true
    | _ => false

/-- One blob held by the object store: body bytes, content type, and
string-keyed metadata. -/
structure StoredObject where
  body : String
  contentType : String
  metadata : List (String × String)
  deriving DecidableEq, Repr

/-- State of the external Object Store: objects keyed by (bucket, name);
the most recent write for a key comes first. -/
abbrev CsState := List ((String × String) × StoredObject)

/-- Modelled from the spec: the external Object Store collaborator of §6
(`googleapiclient` storage client, not part of this repository). A put
stores body/content-type/metadata under (bucket, name), a later get of the
same key returns exactly what was put (last write wins), and a get of an
absent key fails with the transport client's `HttpError` (404). -/
def faithfulCs : CsClient CsState where
  bucketsGet _ _ := .ok ()
  objectsGet st bucket name :=
    match st.lookup (bucket, name) with
    | some o => .ok ⟨o.contentType, o.metadata⟩
    | none => .error (.httpError "404 Not Found")
  objectsGetMedia st bucket name :=
    match st.lookup (bucket, name) with
    | some o => .ok o.body
    | none => .error (.httpError "404 Not Found")
  objectsInsert st bucket name body contentType metadata :=
    .ok (((bucket, name), ⟨body, contentType, metadata⟩) :: st)

/-- The sequence of the round-trip scenario: `create(name, secret)` against
the store state `st`, then `get(name)` against the store state the creation
produced, then the `plaintext` property of the secret `get` returned;
failures propagate. -/
def createThenGetPlaintext (kms : KmsClient) (b64 : B64) (c : Chest)
    (st : CsState) (name secret : String) : Except PyErr String :=
  match chestCreate kms faithfulCs b64 c st name secret with
  | (.error e, _) => .error e
  | (.ok (_, st2), _) =>
    match chestGet faithfulCs c st2 name with
    | (.error e, _) => .error e
    | (.ok s2, _) =>
      match s2.plaintext kms b64 with
      | (.error e, _, _) => .error e
      | (.ok p, _, _) => .ok p

/-- Identity stand-in for the base64 codec, for concrete witnesses (it
satisfies `dec (enc s) = s`). -/
def idB64 : B64 := ⟨fun s => s, fun s => s⟩

/-- A Key Service stand-in whose encrypt returns the payload and whose
decrypt returns it back, for concrete witnesses (it satisfies
`decrypt (encrypt p) = p`). -/
def okKms : KmsClient := ⟨fun _ p => .ok p, fun _ c => .ok ⟨c⟩⟩

/-- A concrete chest value for witnesses. -/
def chestW : Chest :=
  ⟨"proj1", "proj1", "proj1-secrets", "global", "aletheia",
   keyRouteFormat "proj1" "global" "aletheia" "proj1"⟩

/-- C1: for every name and plaintext, `create(name, P)` followed by
`get(name).plaintext` yields `P`, assuming the Key Service collaborator
round-trips (`decrypt(encrypt(P)) = P`, stated at the base64 level at which
the source calls it, together with the base64 round trip). -/
theorem create_get_roundtrip (kms : KmsClient) (b64 : B64) (c : Chest)
    (st : CsState) (name p E : String)
    (hb : b64.dec (b64.enc p) = p)
    (hE : kms.encrypt c.keyname (b64.enc p) = .ok E)
    (hD : kms.decrypt c.keyname E = .ok ⟨b64.enc p⟩) :
    createThenGetPlaintext kms b64 c st name p = .ok p := by
  simp [createThenGetPlaintext, chestCreate, hE, faithfulCs, chestGet,
    SimpleSecret.plaintext, SimpleSecret.decrypt, hD, hb, List.lookup,
    ALETHEIA_METADATA_KEY, ALETHEIA_CONTENT_TYPE]

/-- Witness for C1 at concrete inputs. -/
theorem create_get_roundtrip_witness :
    createThenGetPlaintext okKms idB64 chestW [] "db/password" "s3cr3t" =
      .ok "s3cr3t" :=
  create_get_roundtrip okKms idB64 chestW [] "db/password" "s3cr3t" "s3cr3t"
    rfl rfl rfl

/-- C2: whenever `create` reaches the store (its encrypt call returned the
blob `E`), the put call it issues has content type exactly
`ALETHEIA_CONTENT_TYPE`, exactly one metadata entry, namely
`ALETHEIA_METADATA_KEY` mapped to the chest's fully-qualified key route,
and body exactly `E`, the encrypt-call result, with no additional
wrapping. The chest's key route is the one `chestInit` derived via
`keyRouteFormat`. -/
theorem create_put_format {σ : Type} (kms : KmsClient) (cs : CsClient σ)
    (b64 : B64) (st0 st : σ) (project_id chest bucket location keyring : String)
    (c : Chest) (tr0 : List ExtCall) (name p E : String)
    (hc : chestInit kms cs b64 st0 project_id chest bucket location keyring =
      (.ok c, tr0))
    (hE : kms.encrypt c.keyname (b64.enc p) = .ok E) :
    (chestCreate kms cs b64 c st name p).2 =
      [.kmsEncrypt c.keyname (b64.enc p),
       .csObjectsInsert c.bucket name E ALETHEIA_CONTENT_TYPE
         [(ALETHEIA_METADATA_KEY,
           keyRouteFormat project_id location keyring chest)]] := by
  obtain ⟨cpid, cch, cbk, cloc, ckr, ckn⟩ := c
  have hkey : ckn = keyRouteFormat project_id location keyring chest := by
    simp only [chestInit] at hc
    split at hc
    · simp at hc
    · split at hc
      · simp at hc
      · simp at hc
      · simp only [Prod.mk.injEq, Except.ok.injEq, Chest.mk.injEq] at hc
        exact hc.1.2.2.2.2.2.symm
  subst hkey
  simp only [chestCreate] at hE ⊢
  rw [hE]
  rcases h3 : cs.objectsInsert st cbk name E ALETHEIA_CONTENT_TYPE
      [(ALETHEIA_METADATA_KEY,
        keyRouteFormat project_id location keyring chest)] with e | st2 <;>
    simp [h3]

/-- Witness for C2 at concrete inputs. -/
theorem create_put_format_witness :
    (chestCreate okKms faithfulCs idB64 chestW ([] : CsState) "n" "p").2 =
      [.kmsEncrypt chestW.keyname "p",
       .csObjectsInsert "proj1-secrets" "n" "p" ALETHEIA_CONTENT_TYPE
         [(ALETHEIA_METADATA_KEY,
           keyRouteFormat "proj1" "global" "aletheia" "proj1")]] :=
  create_put_format okKms faithfulCs idB64 [] [] "proj1" "proj1"
    "proj1-secrets" "global" "aletheia" chestW
    [.kmsEncrypt chestW.keyname "THIS IS NOT A SECRET",
     .csBucketsGet "proj1-secrets"] "n" "p" "p" rfl rfl

/-- A Key Service stand-in whose calls all fail with a transport
(`HttpError`) failure, for concrete witnesses and counterexamples. -/
def kmsKeyFail : KmsClient :=
  ⟨fun _ _ => .error (.httpError "403 Permission Denied"),
   fun _ _ => .error (.httpError "403 Permission Denied")⟩

/-- An Object Store stand-in whose calls all fail with a transport
(`HttpError`) failure, for concrete witnesses. -/
def csBucketFail : CsClient Unit where
  bucketsGet _ _ := .error (.httpError "404 bucket")
  objectsGet _ _ _ := .error (.httpError "404 bucket")
  objectsGetMedia _ _ _ := .error (.httpError "404 bucket")
  objectsInsert _ _ _ _ _ _ := .error (.httpError "404 bucket")

/-- C3 (evidence of the code bug): when the named object does not exist the
storage client's metadata fetch raises its generic transport `HttpError`,
and `Chest.get` does not catch it — the caller receives the raw transport
error, not a distinct not-found signal. The method's own docstring
(secrets.py lines 105-107) promises `ValueError` for a nonexistent secret,
but `ValueError` is in fact raised only for the exists-but-invalid case. -/
theorem get_missing_propagates_httpError {σ : Type} (cs : CsClient σ)
    (c : Chest) (st : σ) (name m : String)
    (h : cs.objectsGet st c.bucket name = .error (.httpError m)) :
    chestGet cs c st name =
      (.error (.httpError m), [.csObjectsGet c.bucket name]) := by
  simp [chestGet, h]

/-- Witness for C3's evidence theorem: `get` of a never-written name on the
faithful store surfaces the store's 404 `HttpError` unmodified. -/
theorem get_missing_propagates_httpError_witness :
    chestGet faithfulCs chestW [] "missing" =
      (.error (.httpError "404 Not Found"),
       [.csObjectsGet "proj1-secrets" "missing"]) :=
  get_missing_propagates_httpError faithfulCs chestW [] "missing"
    "404 Not Found" rfl

/-- C4: when the stored object's content type differs from
`ALETHEIA_CONTENT_TYPE` or its metadata lacks `ALETHEIA_METADATA_KEY`,
`Chest.get` raises `ValueError` (never returns a `SimpleSecret`) and its
trace contains no `csObjectsGetMedia` call: the object body is not
fetched. -/
theorem get_invalid_format {σ : Type} (cs : CsClient σ) (c : Chest) (st : σ)
    (name : String) (md : ObjectMetadata)
    (h : cs.objectsGet st c.bucket name = .ok md)
    (hbad : ¬(md.contentType = ALETHEIA_CONTENT_TYPE ∧
      (md.metadata.lookup ALETHEIA_METADATA_KEY).isSome)) :
    chestGet cs c st name =
      (.error (.valueError
        (name ++ " does not have the correct content type or key set")),
       [.csObjectsGet c.bucket name]) := by
  rcases hl : md.metadata.lookup ALETHEIA_METADATA_KEY with _ | v
  · simp [chestGet, h, hl]
  · have hct : ¬ md.contentType = ALETHEIA_CONTENT_TYPE :=
      fun hcteq => hbad ⟨hcteq, by rw [hl]; rfl⟩
    simp [chestGet, h, hl, hct]

/-- Witness for C4: an object stored with content type `text/plain` and no
metadata is rejected with `ValueError` and no body fetch. -/
theorem get_invalid_format_witness :
    chestGet faithfulCs chestW
        [(("proj1-secrets", "n"), ⟨"body", "text/plain", []⟩)] "n" =
      (.error (.valueError
        ("n" ++ " does not have the correct content type or key set")),
       [.csObjectsGet "proj1-secrets" "n"]) :=
  get_invalid_format faithfulCs chestW
    [(("proj1-secrets", "n"), ⟨"body", "text/plain", []⟩)] "n"
    ⟨"text/plain", []⟩ rfl (by decide)

/-- C5 counterexample: a key-probe failure during `Chest.__init__` is NOT
converted into a distinct `KeyUnavailable` error kind — the constructor
surfaces the Key Service client's generic transport `HttpError` unmodified
(the probe at secrets.py lines 72-76 is not wrapped in any handler),
refuting the claim that it is distinguishable from a generic transport
error. -/
theorem chestInit_keyprobe_counterexample :
    (chestInit kmsKeyFail faithfulCs idB64 [] "proj1" "proj1" "proj1-secrets"
        "global" "aletheia").1 =
      .error (.httpError "403 Permission Denied") := rfl

/-- C5 amended: a failure of the key-probe encrypt call propagates the Key
Service client's error unchanged (there is no distinct `KeyUnavailable`
kind), while an `HttpError` from the bucket-metadata probe is converted to
the distinct `RuntimeError("Unable to access CS bucket {bucket}")`; in
either case construction returns an error and no `Chest` value, so no field
is ever assigned (fail fast). -/
theorem chestInit_failfast {σ : Type} (kms : KmsClient) (cs : CsClient σ)
    (b64 : B64) (st : σ) (project_id chest bucket location keyring : String) :
    (∀ e, kms.encrypt (keyRouteFormat project_id location keyring chest)
        (b64.enc "THIS IS NOT A SECRET") = .error e →
      (chestInit kms cs b64 st project_id chest bucket location keyring).1 =
        .error e) ∧
    (∀ m v, kms.encrypt (keyRouteFormat project_id location keyring chest)
        (b64.enc "THIS IS NOT A SECRET") = .ok v →
      cs.bucketsGet st bucket = .error (.httpError m) →
      (chestInit kms cs b64 st project_id chest bucket location keyring).1 =
        .error (.runtimeError ("Unable to access CS bucket " ++ bucket))) := by
  constructor
  · intro e he
    simp [chestInit, he]
  · intro m v hv hb
    simp [chestInit, hv, hb]

/-- Witness for the amended C5, at concrete failing clients: a failing key
probe surfaces the raw `HttpError`; a failing bucket probe surfaces the
`RuntimeError`. -/
theorem chestInit_failfast_witness :
    (chestInit kmsKeyFail faithfulCs idB64 [] "p" "c" "b" "global"
        "aletheia").1 = .error (.httpError "403 Permission Denied") ∧
    (chestInit okKms csBucketFail idB64 () "p" "c" "b" "global"
        "aletheia").1 =
      .error (.runtimeError ("Unable to access CS bucket " ++ "b")) :=
  ⟨(chestInit_failfast kmsKeyFail faithfulCs idB64 [] "p" "c" "b" "global"
      "aletheia").1 (.httpError "403 Permission Denied") rfl,
   (chestInit_failfast okKms csBucketFail idB64 () "p" "c" "b" "global"
      "aletheia").2 "404 bucket" "THIS IS NOT A SECRET" rfl rfl⟩

/-- C6: starting from an unpopulated cache, a successful first access to the
`plaintext` property makes exactly one decrypt call and populates the cache
with the returned value; the second access on the resulting object makes no
external call, returns the same value, and leaves the object unchanged (the
cache is never invalidated or re-derived). -/
theorem plaintext_single_decrypt (kms : KmsClient) (b64 : B64)
    (s : SimpleSecret) (p : String) (s1 : SimpleSecret) (tr1 : List ExtCall)
    (h0 : s._plaintext = none)
    (h1 : s.plaintext kms b64 = (.ok p, s1, tr1)) :
    countDecrypt tr1 = 1 ∧ s1._plaintext = some p ∧
      s1.plaintext kms b64 = (.ok p, s1, []) := by
  simp only [SimpleSecret.plaintext, h0, SimpleSecret.decrypt] at h1
  rcases hd : kms.decrypt s._kms_keyname s._ciphertext with e | r <;>
    rw [hd] at h1
  · simp at h1
  · simp only [Prod.mk.injEq, Except.ok.injEq] at h1
    obtain ⟨hp, hs1, htr⟩ := h1
    subst hp
    subst hs1
    subst htr
    refine ⟨by simp [countDecrypt], rfl, ?_⟩
    simp [SimpleSecret.plaintext]

/-- Witness for C6 at a concrete secret and Key Service. -/
theorem plaintext_single_decrypt_witness :
    countDecrypt [.kmsDecrypt "k" "ct"] = 1 ∧
      (SimpleSecret.mk "n" "ct" "k" (some "ct"))._plaintext = some "ct" ∧
      (SimpleSecret.mk "n" "ct" "k" (some "ct")).plaintext okKms idB64 =
        (.ok "ct", SimpleSecret.mk "n" "ct" "k" (some "ct"), []) :=
  plaintext_single_decrypt okKms idB64 (SimpleSecret.mk "n" "ct" "k" none)
    "ct" (SimpleSecret.mk "n" "ct" "k" (some "ct")) [.kmsDecrypt "k" "ct"]
    rfl rfl

/-- C7: if the Key Service decrypt call fails during a first access to the
`plaintext` property, the access surfaces that failure, the object is
unchanged (the cache stays unpopulated, since the assignment of line 209
never executes), and the access did perform one decrypt call — so the next
access, on the identical object, performs the decrypt call again. -/
theorem plaintext_failure_leaves_cache (kms : KmsClient) (b64 : B64)
    (s : SimpleSecret) (e : PyErr)
    (h0 : s._plaintext = none)
    (hd : kms.decrypt s._kms_keyname s._ciphertext = .error e) :
    s.plaintext kms b64 =
        (.error e, s, [.kmsDecrypt s._kms_keyname s._ciphertext]) ∧
      countDecrypt (s.plaintext kms b64).2.2 = 1 := by
  have h : s.plaintext kms b64 =
      (.error e, s, [.kmsDecrypt s._kms_keyname s._ciphertext]) := by
    simp [SimpleSecret.plaintext, h0, SimpleSecret.decrypt, hd]
  exact ⟨h, by simp [h, countDecrypt]⟩

/-- Witness for C7 at a concrete secret and failing Key Service. -/
theorem plaintext_failure_leaves_cache_witness :
    (SimpleSecret.mk "n" "ct" "k" none).plaintext kmsKeyFail idB64 =
        (.error (.httpError "403 Permission Denied"),
         SimpleSecret.mk "n" "ct" "k" none, [.kmsDecrypt "k" "ct"]) ∧
      countDecrypt
        ((SimpleSecret.mk "n" "ct" "k" none).plaintext kmsKeyFail
          idB64).2.2 = 1 :=
  plaintext_failure_leaves_cache kmsKeyFail idB64
    (SimpleSecret.mk "n" "ct" "k" none)
    (.httpError "403 Permission Denied") rfl rfl

/-- C8: every `SimpleSecret` a successful `Chest.create(name, P)` returns
has its plaintext cache already populated with `P`, so its `plaintext`
property returns `P` with no Key Service call (empty trace) and no change
to the object. -/
theorem create_plaintext_cached {σ : Type} (kms : KmsClient)
    (cs : CsClient σ) (b64 : B64) (c : Chest) (st : σ) (name p : String)
    (s1 : SimpleSecret) (st2 : σ) (tr : List ExtCall)
    (h : chestCreate kms cs b64 c st name p = (.ok (s1, st2), tr)) :
    s1._plaintext = some p ∧ s1.plaintext kms b64 = (.ok p, s1, []) := by
  simp only [chestCreate] at h
  split at h
  · simp at h
  · split at h
    · simp at h
    · simp only [Prod.mk.injEq, Except.ok.injEq] at h
      obtain ⟨⟨hs1, -⟩, -⟩ := h
      subst hs1
      exact ⟨rfl, by simp [SimpleSecret.plaintext]⟩

/-- Witness for C8 at concrete inputs. -/
theorem create_plaintext_cached_witness :
    (SimpleSecret.mk "n" "p" chestW.keyname (some "p"))._plaintext =
        some "p" ∧
      (SimpleSecret.mk "n" "p" chestW.keyname (some "p")).plaintext okKms
          idB64 =
        (.ok "p", SimpleSecret.mk "n" "p" chestW.keyname (some "p"), []) :=
  create_plaintext_cached okKms faithfulCs idB64 chestW [] "n" "p"
    (SimpleSecret.mk "n" "p" chestW.keyname (some "p"))
    [(("proj1-secrets", "n"),
      ⟨"p", ALETHEIA_CONTENT_TYPE, [(ALETHEIA_METADATA_KEY, chestW.keyname)]⟩)]
    [.kmsEncrypt chestW.keyname "p",
     .csObjectsInsert "proj1-secrets" "n" "p" ALETHEIA_CONTENT_TYPE
       [(ALETHEIA_METADATA_KEY, chestW.keyname)]] rfl

/-- C9 counterexample: a `SimpleSecret` whose cache holds the empty string
does hold a decrypted value, yet `__repr__` reports `encrypted` (the source
tests Python truthiness of `_plaintext`, line 241, and the empty string is
falsy), while an otherwise identical secret caching `"x"` reports
`cleartext` — so the representation neither reports `cleartext` exactly
when the cache is populated nor is a function only of the name and of
whether the cache is populated. -/
theorem repr_counterexample :
    (SimpleSecret.mk "n" "ct" "k" (some ""))._plaintext.isSome = true ∧
      (SimpleSecret.mk "n" "ct" "k" (some "")).reprStr =
        "Secret(name=\x27n\x27, encrypted)" ∧
      (SimpleSecret.mk "n" "ct" "k" (some "x")).reprStr =
        "Secret(name=\x27n\x27, cleartext)" :=
  ⟨rfl, rfl, rfl⟩

/-- C9 amended: the representation never contains the plaintext and is a
function only of the secret's name and of the Python truthiness of its
cache (`None` and a cached empty string report `encrypted`, a cached
non-empty string reports `cleartext`): any two secrets agreeing on name and
cache truthiness have identical representations, so nothing about the
plaintext beyond that one bit can leak through it. -/
theorem repr_function_of_truthiness (s t : SimpleSecret)
    (hn : s.name = t.name)
    (hp : pyTruthy s._plaintext = pyTruthy t._plaintext) :
    s.reprStr = t.reprStr := by
  simp [SimpleSecret.reprStr, hn, hp]

/-- Witness for the amended C9: two secrets caching different non-empty
plaintexts produce the identical representation. -/
theorem repr_function_of_truthiness_witness :
    (SimpleSecret.mk "n" "c1" "k1" (some "abc")).reprStr =
      (SimpleSecret.mk "n" "c2" "k2" (some "xyz")).reprStr :=
  repr_function_of_truthiness (SimpleSecret.mk "n" "c1" "k1" (some "abc"))
    (SimpleSecret.mk "n" "c2" "k2" (some "xyz")) rfl rfl

/-- C10: the cache test of the `plaintext` property is `is None`
(line 208), not truthiness, so a secret whose cache holds the empty string
returns the empty string with no Key Service call and no change to the
object. -/
theorem plaintext_empty_cache_no_call (kms : KmsClient) (b64 : B64)
    (s : SimpleSecret) (h : s._plaintext = some "") :
    s.plaintext kms b64 = (.ok "", s, []) := by
  simp [SimpleSecret.plaintext, h]

/-- Witness for C10: even against a Key Service whose decrypt always fails,
a secret caching the empty string returns it with an empty call trace. -/
theorem plaintext_empty_cache_no_call_witness :
    (SimpleSecret.mk "n" "ct" "k" (some "")).plaintext kmsKeyFail idB64 =
      (.ok "", SimpleSecret.mk "n" "ct" "k" (some ""), []) :=
  plaintext_empty_cache_no_call kmsKeyFail idB64
    (SimpleSecret.mk "n" "ct" "k" (some "")) rfl

end Aletheia
